import Mathlib

/-!
Verification development for the security-camera GUI client (`src/main.py`).

The file shallowly embeds the client-side orchestration logic of `main.py`:
the alert log (`add_alert`, lines 191-199), the base-URL resolver
(`get_base_url`, lines 59-67), the polling loop body (`update_video_feed`,
lines 69-98), the start/stop controller (`start_monitoring`, lines 100-138,
and `stop_monitoring`, lines 140-181), and the self-destruct orchestrator
(`perform_self_destruct`, lines 202-353).  Remote HTTP calls are abstracted
as outcome values supplied by an environment; UI mutations and log appends
become explicit state or event lists.
-/

namespace HomeSecurity

/-! ## Alert log (`add_alert`, main.py lines 191-199)

An alert entry is `(timestamp, message)`; the Python code appends a rendered
text control and pops the head when the length exceeds 200. -/

def alertCapacity : Nat := 200

def add_alert (log : List (String × String)) (timestamp message : String) :
    List (String × String) :=
  let log' := log ++ [(timestamp, message)]
  if log'.length > alertCapacity then log'.drop 1 else log'

lemma add_alert_length_le (log : List (String × String)) (t m : String)
    (h : log.length ≤ alertCapacity) :
    (add_alert log t m).length ≤ alertCapacity := by
  unfold add_alert
  dsimp only
  split
  · simpa using h
  · next hle =>
    simp only [List.length_append, List.length_cons, List.length_nil, Nat.not_lt] at hle ⊢
    omega

lemma foldl_add_alert_length_le (ops : List (String × String)) :
    ∀ log : List (String × String), log.length ≤ alertCapacity →
      (ops.foldl (fun l p => add_alert l p.1 p.2) log).length ≤ alertCapacity := by
  induction ops with
  | nil => intro log h; simpa using h
  | cons p rest ih =>
    intro log h
    simp only [List.foldl_cons]
    exact ih _ (add_alert_length_le log p.1 p.2 h)

lemma add_alert_full (log : List (String × String)) (t m : String)
    (h : log.length = alertCapacity) :
    add_alert log t m = log.tail ++ [(t, m)] := by
  cases log with
  | nil => simp [alertCapacity] at h
  | cons a l =>
    unfold add_alert
    dsimp only
    have hlen : ((a :: l) ++ [(t, m)]).length = alertCapacity + 1 := by
      simp only [List.length_append, List.length_cons, List.length_nil] at h ⊢
      omega
    rw [if_pos (by omega)]
    simp

/-! ## Base URL resolver (`get_base_url`, main.py lines 59-67)

Strings are modelled as `List Char` so Python's `strip()` / `rstrip('/')`
become explicit list operations.  The scheme check on line 64 only prints a
warning; it is recorded in the `warned` field and never changes the URL. -/

def DEFAULT_REST_API_URL : List Char := "http://localhost:5000".toList

def pyStrip (s : List Char) : List Char :=
  ((s.dropWhile Char.isWhitespace).reverse.dropWhile Char.isWhitespace).reverse

def pyRstripSlash (s : List Char) : List Char :=
  (s.reverse.dropWhile (fun c => c == '/')).reverse

def hasHttpScheme (s : List Char) : Bool :=
  ("http://".toList.isPrefixOf s) || ("https://".toList.isPrefixOf s)

structure BaseUrl where
  url : List Char
  warned : Bool
deriving DecidableEq

def get_base_url (input : List Char) : BaseUrl :=
  let url := pyStrip input
  if url.isEmpty then { url := DEFAULT_REST_API_URL, warned := false }
  else { url := pyRstripSlash url, warned := !hasHttpScheme url }

lemma head?_dropWhile_eq_some {α : Type} (p : α → Bool) (l : List α) (a : α)
    (h : (l.dropWhile p).head? = some a) : p a = false := by
  induction l with
  | nil => simp [List.dropWhile] at h
  | cons x xs ih =>
    rw [List.dropWhile_cons] at h
    by_cases hp : p x
    · rw [if_pos hp] at h; exact ih h
    · rw [if_neg hp] at h
      simp only [List.head?_cons, Option.some.injEq] at h
      subst h
      exact Bool.eq_false_iff.mpr hp

lemma pyRstripSlash_getLast? (l : List Char) :
    (pyRstripSlash l).getLast? ≠ some '/' := by
  intro h
  unfold pyRstripSlash at h
  rw [List.getLast?_reverse] at h
  have := head?_dropWhile_eq_some (fun c => c == '/') l.reverse '/' h
  simp at this

/-! ## Polling loop body (`update_video_feed`, main.py lines 69-98)

One iteration of the `while is_running` loop.  The outcome of the awaited
frame fetch (`requests.get` + `raise_for_status` + `json()`) is abstracted:
`ok frame` is a 2xx response whose payload has a truthy `success` and a
truthy `frame`; `noFrame detail` is a 2xx response without those (the code
reads `result.get('detail', 'Frame not available')`, so the default is part
of `detail` here); `timeout` and `reqErr` are the two caught exception
classes.  `stillRunning` is the value of `is_running` at the moment the
exception handlers run (it can have turned false during the await).
`sleepsMs` lists the `asyncio.sleep` calls of the iteration in order, in
milliseconds: the failure cooldown `sleep(2)` and the common `sleep(0.1)`. -/

inductive FetchOutcome
  | ok (frame : String)
  | noFrame (detail : String)
  | timeout
  | reqErr (msg : String)
deriving DecidableEq

structure IterEffect where
  publishedFrame : Option String
  alerts : List String
  sleepsMs : List Nat
deriving DecidableEq

def cooldownMs : Nat := 2000

def refreshDelayMs : Nat := 100

def pollIteration (stillRunning : Bool) (o : FetchOutcome) : IterEffect :=
  match o with
  | .ok f =>
    { publishedFrame := some f, alerts := [], sleepsMs := [refreshDelayMs] }
  | .noFrame d =>
    { publishedFrame := none,
      alerts := ["Frame retrieval failed: " ++ d],
      sleepsMs := [refreshDelayMs] }
  | .timeout =>
    { publishedFrame := none,
      alerts := if stillRunning then ["Video feed request timed out."] else [],
      sleepsMs := [cooldownMs, refreshDelayMs] }
  | .reqErr m =>
    { publishedFrame := none,
      alerts := if stillRunning then ["Error updating video feed: " ++ m] else [],
      sleepsMs := [cooldownMs, refreshDelayMs] }

/-- Classification used by the spec sentence: every non-`ok` fetch outcome is
a failure (timeout, transport error, or success flag false / missing frame). -/
def isFetchFailure : FetchOutcome → Bool
  | .ok _ => false
  | _ => true

/-- The `while is_running` loop run over a list of planned fetch outcomes
with `is_running` remaining true and no cancellation: it returns the
accumulated alerts and the number of fetch attempts performed.  Failures
never break out of the loop; the only exits in the source are the loop
condition turning false and the `CancelledError` raised by external
cancellation, neither of which a fetch failure triggers. -/
def update_video_feed_loop : List FetchOutcome → List String × Nat
  | [] => ([], 0)
  | o :: rest =>
    let eff := pollIteration true o
    let r := update_video_feed_loop rest
    (eff.alerts ++ r.1, r.2 + 1)

/-! ## Start controller (`start_monitoring`, main.py lines 100-138) -/

inductive StartOutcome
  | ok
  | appFail (detail : String)
  | timeout
  | reqErr (msg : String)
  | unexpected (msg : String)
deriving DecidableEq

structure MonState where
  isRunning : Bool
  taskLive : Bool
  startDisabled : Bool
  stopDisabled : Bool
  statusLabel : String
  alerts : List String
deriving DecidableEq

def start_monitoring (st : MonState) (o : StartOutcome) : MonState :=
  if st.isRunning then st
  else
    let st := { st with startDisabled := true,
                        alerts := st.alerts ++ ["Attempting to start monitoring..."] }
    match o with
    | .ok =>
      { st with isRunning := true, taskLive := true,
                startDisabled := false, stopDisabled := false,
                statusLabel := "Monitoring Active",
                alerts := st.alerts ++ ["Camera monitoring started successfully."] }
    | .appFail d =>
      { st with alerts := st.alerts ++ ["Failed to start monitoring: " ++ d],
                startDisabled := false }
    | .timeout =>
      { st with alerts := st.alerts ++ ["Error starting monitoring: Request timed out."],
                startDisabled := false }
    | .reqErr m =>
      { st with alerts := st.alerts ++ ["Error starting monitoring: " ++ m],
                startDisabled := false }
    | .unexpected m =>
      { st with alerts := st.alerts ++ ["Unexpected error starting monitoring: " ++ m],
                startDisabled := false }

/-- The alert message that `start_monitoring` logs for each failing outcome
(mirrors the strings on lines 124, 128, 132, 136 of `main.py`). -/
def startFailureMsg : StartOutcome → Option String
  | .ok => none
  | .appFail d => some ("Failed to start monitoring: " ++ d)
  | .timeout => some "Error starting monitoring: Request timed out."
  | .reqErr m => some ("Error starting monitoring: " ++ m)
  | .unexpected m => some ("Unexpected error starting monitoring: " ++ m)

/-! ## Stop controller (`stop_monitoring`, main.py lines 140-181)

Modelled as the ordered list of observable actions the coroutine performs.
`spawnStopRequest` is the `asyncio.create_task(send_stop_request())` on
line 172 — a detached task, not an awaited call; the remote stop request
itself (`remoteStopCall`) happens only inside that task's own event list,
`send_stop_request_events`.  `diag` is a `print` to stderr/stdout (the
diagnostic channel), distinct from `alert` (an `add_alert` append). -/

inductive StopEv
  | alert (msg : String)
  | setActive (b : Bool)
  | cancelTask
  | awaitTask
  | clearHandle
  | setStartDisabled (b : Bool)
  | setStopDisabled (b : Bool)
  | setStatus (s : String)
  | clearFrame
  | pageUpdate
  | spawnStopRequest
  | remoteStopCall
  | diag (msg : String)
deriving DecidableEq

def stop_monitoring_events (isRunning taskLive userInitiated : Bool) : List StopEv :=
  if isRunning then
    [StopEv.setStopDisabled true,
     StopEv.alert "Attempting to stop monitoring...",
     StopEv.setActive false]
    ++ (if taskLive then [StopEv.cancelTask, StopEv.awaitTask, StopEv.clearHandle] else [])
    ++ [StopEv.setStartDisabled false,
        StopEv.setStopDisabled true,
        StopEv.setStatus "System Ready",
        StopEv.clearFrame,
        StopEv.alert "Camera monitoring stopped."]
    ++ (if userInitiated then [StopEv.pageUpdate] else [])
    ++ [StopEv.spawnStopRequest]
  else
    [StopEv.setStartDisabled false,
     StopEv.setStopDisabled true,
     StopEv.setStatus "System Ready",
     StopEv.clearFrame,
     StopEv.alert "Camera monitoring not active. Cannot stop."]
    ++ (if userInitiated then [StopEv.pageUpdate] else [])

/-- Body of the detached `send_stop_request` task (lines 164-171): it issues
the remote stop call; on any exception it only prints a diagnostic line. -/
def send_stop_request_events (failure : Option String) : List StopEv :=
  match failure with
  | none => [StopEv.remoteStopCall]
  | some m => [StopEv.remoteStopCall,
               StopEv.diag ("Failed to send stop request to API: " ++ m)]

def isAlertEv : StopEv → Bool
  | .alert _ => true
  | _ => false

/-! ## Self-destruct orchestrator (`perform_self_destruct`, main.py lines 202-353)

Each remote step's awaited HTTP call resolves to a `CallOutcome`: `ok` is a
2xx response whose JSON has a truthy `success`; `appFail detail` is a 2xx
response with `success` falsy (the code reads
`result.get('detail', 'Unknown error')`, so the default is folded into
`detail`); `exc msg` is any raised exception (timeout, transport error,
`raise_for_status` on non-2xx, JSON decode error).  The `trace` field
records, in order, each step block that executed together with whether it
succeeded — an entry is appended exactly where the Python block finishes. -/

inductive StepName
  | s3Delete
  | dbCleanup
  | dbDeleteFile
  | stopMonitoringStep
deriving DecidableEq

inductive CallOutcome
  | ok
  | appFail (detail : String)
  | exc (msg : String)
deriving DecidableEq

def CallOutcome.succeeded : CallOutcome → Bool
  | .ok => true
  | _ => false

structure SDState where
  isRunning : Bool
  taskLive : Bool
  alerts : List String
  errorDetails : List String
  success : Bool
  trace : List (StepName × Bool)
deriving DecidableEq

def sdAlert (st : SDState) (m : String) : SDState :=
  { st with alerts := st.alerts ++ [m] }

/-- A step block's success path: `await add_alert(...)` of the ✅ message and
the step completes successfully. -/
def sdOk (st : SDState) (name : StepName) (msg : String) : SDState :=
  { st with alerts := st.alerts ++ [msg], trace := st.trace ++ [(name, true)] }

/-- A step block's failure path (both the `success`-falsy branch and the
`except` branch): alert the message, record it in `error_details`, and set
the composite `success` flag to `False`. -/
def sdFail (st : SDState) (name : StepName) (msg : String) : SDState :=
  { st with alerts := st.alerts ++ [msg],
            errorDetails := st.errorDetails ++ [msg],
            success := false,
            trace := st.trace ++ [(name, false)] }

/-- Step 1 (lines 216-252): delete the S3 bucket. -/
def sdStep1 (st : SDState) (o : CallOutcome) : SDState :=
  let st := sdAlert st "Deleting S3 bucket..."
  match o with
  | .ok => sdOk st .s3Delete "✅ S3 bucket deleted."
  | .appFail d => sdFail st .s3Delete ("⚠️ Failed to delete S3 bucket: " ++ d)
  | .exc m => sdFail st .s3Delete ("❌ Error during S3 deletion: " ++ m)

/-- Step 2 (lines 254-288): clean the database; `count` is the
`deleted_count` reported on success. -/
def sdStep2 (st : SDState) (o : CallOutcome) (count : Nat) : SDState :=
  let st := sdAlert st "Cleaning up database..."
  match o with
  | .ok => sdOk st .dbCleanup ("✅ Database cleaned: " ++ toString count ++ " records deleted.")
  | .appFail d => sdFail st .dbCleanup ("⚠️ Failed to clean database: " ++ d)
  | .exc m => sdFail st .dbCleanup ("❌ Error during database cleanup: " ++ m)

/-- Step 3 (lines 290-322): delete the database file. -/
def sdStep3 (st : SDState) (o : CallOutcome) : SDState :=
  let st := sdAlert st "Deleting database file..."
  match o with
  | .ok => sdOk st .dbDeleteFile "✅ Database file deleted."
  | .appFail d => sdFail st .dbDeleteFile ("⚠️ Failed to delete database file: " ++ d)
  | .exc m => sdFail st .dbDeleteFile ("❌ Error deleting database file: " ++ m)

/-- State effect of the internal `await stop_monitoring(None)` call on
line 331 when it returns normally (active branch of `stop_monitoring`):
`is_running` becomes false, the polling task is cancelled/cleared, and the
two stop alerts are appended. -/
def stopEffect (st : SDState) : SDState :=
  { st with isRunning := false, taskLive := false,
            alerts := st.alerts ++ ["Attempting to stop monitoring...",
                                    "Camera monitoring stopped."] }

/-- Step 4 (lines 324-338): only when `is_running` is true.  `stopRaises`
abstracts the defensive `except` around the internal call: `some m` means
the call raised with message `m` (modelled as leaving the state otherwise
untouched), `none` means it completed normally. -/
def sdStep4 (st : SDState) (stopRaises : Option String) : SDState :=
  if st.isRunning then
    let st := sdAlert st "Stopping camera monitoring..."
    match stopRaises with
    | none =>
      let st' := stopEffect st
      { st' with trace := st'.trace ++ [(StepName.stopMonitoringStep, true)] }
    | some m => sdFail st .stopMonitoringStep ("❌ Error stopping monitoring: " ++ m)
  else st

/-- Final status report (lines 340-348). -/
def sdFinish (st : SDState) : SDState :=
  if st.success then sdAlert st "✅ Self-destruct sequence completed successfully."
  else sdAlert st "⚠️ Self-destruct completed with some errors."

/-- Environment of one invocation: the resolved outcome of each remote call. -/
structure SDEnv where
  s3 : CallOutcome
  cleanup : CallOutcome
  cleanupCount : Nat
  dbfile : CallOutcome
  stopRaises : Option String
deriving DecidableEq

def perform_self_destruct (isRunning taskLive : Bool) (env : SDEnv) : SDState :=
  let st : SDState := { isRunning := isRunning, taskLive := taskLive,
                        alerts := [], errorDetails := [], success := true, trace := [] }
  sdFinish (sdStep4 (sdStep3 (sdStep2 (sdStep1 st env.s3) env.cleanup env.cleanupCount)
                             env.dbfile)
                    env.stopRaises)

/-! ### Per-step bookkeeping lemmas -/

lemma sdStep1_trace (st : SDState) (o : CallOutcome) :
    (sdStep1 st o).trace = st.trace ++ [(StepName.s3Delete, o.succeeded)] := by
  cases o <;> simp [sdStep1, sdOk, sdFail, sdAlert, CallOutcome.succeeded]

lemma sdStep1_success (st : SDState) (o : CallOutcome) :
    (sdStep1 st o).success = (st.success && o.succeeded) := by
  cases o <;> simp [sdStep1, sdOk, sdFail, sdAlert, CallOutcome.succeeded]

lemma sdStep1_isRunning (st : SDState) (o : CallOutcome) :
    (sdStep1 st o).isRunning = st.isRunning := by
  cases o <;> simp [sdStep1, sdOk, sdFail, sdAlert]

lemma sdStep2_trace (st : SDState) (o : CallOutcome) (c : Nat) :
    (sdStep2 st o c).trace = st.trace ++ [(StepName.dbCleanup, o.succeeded)] := by
  cases o <;> simp [sdStep2, sdOk, sdFail, sdAlert, CallOutcome.succeeded]

lemma sdStep2_success (st : SDState) (o : CallOutcome) (c : Nat) :
    (sdStep2 st o c).success = (st.success && o.succeeded) := by
  cases o <;> simp [sdStep2, sdOk, sdFail, sdAlert, CallOutcome.succeeded]

lemma sdStep2_isRunning (st : SDState) (o : CallOutcome) (c : Nat) :
    (sdStep2 st o c).isRunning = st.isRunning := by
  cases o <;> simp [sdStep2, sdOk, sdFail, sdAlert]

lemma sdStep3_trace (st : SDState) (o : CallOutcome) :
    (sdStep3 st o).trace = st.trace ++ [(StepName.dbDeleteFile, o.succeeded)] := by
  cases o <;> simp [sdStep3, sdOk, sdFail, sdAlert, CallOutcome.succeeded]

lemma sdStep3_success (st : SDState) (o : CallOutcome) :
    (sdStep3 st o).success = (st.success && o.succeeded) := by
  cases o <;> simp [sdStep3, sdOk, sdFail, sdAlert, CallOutcome.succeeded]

lemma sdStep3_isRunning (st : SDState) (o : CallOutcome) :
    (sdStep3 st o).isRunning = st.isRunning := by
  cases o <;> simp [sdStep3, sdOk, sdFail, sdAlert]

lemma sdStep4_trace (st : SDState) (f : Option String) :
    (sdStep4 st f).trace
      = st.trace ++ (if st.isRunning then [(StepName.stopMonitoringStep, f.isNone)] else []) := by
  by_cases h : st.isRunning <;> cases f <;>
    simp [sdStep4, sdFail, sdAlert, stopEffect, h]

lemma sdStep4_success (st : SDState) (f : Option String) :
    (sdStep4 st f).success
      = (st.success && (if st.isRunning then f.isNone else true)) := by
  by_cases h : st.isRunning <;> cases f <;>
    simp [sdStep4, sdFail, sdAlert, stopEffect, h]

lemma sdFinish_trace (st : SDState) : (sdFinish st).trace = st.trace := by
  unfold sdFinish; split <;> simp [sdAlert]

lemma sdFinish_success (st : SDState) : (sdFinish st).success = st.success := by
  unfold sdFinish; split <;> simp [sdAlert]

/-! ### Closed forms for one invocation -/

lemma perform_self_destruct_trace (r t : Bool) (env : SDEnv) :
    (perform_self_destruct r t env).trace
      = [(StepName.s3Delete, env.s3.succeeded),
         (StepName.dbCleanup, env.cleanup.succeeded),
         (StepName.dbDeleteFile, env.dbfile.succeeded)]
        ++ (if r then [(StepName.stopMonitoringStep, env.stopRaises.isNone)] else []) := by
  unfold perform_self_destruct
  rw [sdFinish_trace, sdStep4_trace, sdStep3_isRunning, sdStep2_isRunning, sdStep1_isRunning,
      sdStep3_trace, sdStep2_trace, sdStep1_trace]
  simp

lemma perform_self_destruct_success (r t : Bool) (env : SDEnv) :
    (perform_self_destruct r t env).success
      = (env.s3.succeeded && env.cleanup.succeeded && env.dbfile.succeeded
          && (if r then env.stopRaises.isNone else true)) := by
  unfold perform_self_destruct
  rw [sdFinish_success, sdStep4_success, sdStep3_isRunning, sdStep2_isRunning, sdStep1_isRunning,
      sdStep3_success, sdStep2_success, sdStep1_success]
  simp [Bool.and_assoc]

/-! ## Claim theorems -/

/-- Claim C1: every invocation of the self-destruct orchestrator executes its
remote operations strictly in the fixed order bucket delete → record cleanup
→ store-file delete → stop-monitoring-if-active, and the executed-step
sequence is the same for every environment of step outcomes, so a failure
(non-success response or exception) in an earlier step never prevents a
later step from executing. -/
theorem self_destruct_fixed_order (r t : Bool) (env env' : SDEnv) :
    (perform_self_destruct r t env).trace.map Prod.fst
      = [StepName.s3Delete, StepName.dbCleanup, StepName.dbDeleteFile]
        ++ (if r then [StepName.stopMonitoringStep] else [])
    ∧ (perform_self_destruct r t env).trace.map Prod.fst
      = (perform_self_destruct r t env').trace.map Prod.fst := by
  simp only [perform_self_destruct_trace]
  cases r <;> simp

/-- Claim C2: every invocation executes exactly the 3 unconditional steps,
and the conditional stop-monitoring step is executed (exactly once, last)
iff monitoring was active at invocation start; when inactive it is not
counted as a step. -/
theorem self_destruct_step_count (r t : Bool) (env : SDEnv) :
    (perform_self_destruct r t env).trace.length = (if r then 4 else 3)
    ∧ ((perform_self_destruct r t env).trace.map Prod.fst).count StepName.stopMonitoringStep
        = (if r then 1 else 0)
    ∧ ((perform_self_destruct r t env).trace.map Prod.fst).take 3
        = [StepName.s3Delete, StepName.dbCleanup, StepName.dbDeleteFile] := by
  simp only [perform_self_destruct_trace]
  cases r <;> simp [List.count_cons]

/-- Claim C3: the composite success flag equals the conjunction of the
per-step outcomes of all executed steps; it is false iff at least one
executed step failed. -/
theorem self_destruct_composite_success (r t : Bool) (env : SDEnv) :
    (perform_self_destruct r t env).success
      = (perform_self_destruct r t env).trace.all Prod.snd
    ∧ ((perform_self_destruct r t env).success = false
        ↔ ∃ p ∈ (perform_self_destruct r t env).trace, p.2 = false) := by
  simp only [perform_self_destruct_success, perform_self_destruct_trace]
  rcases env with ⟨s3, cl, cnt, db, sr⟩
  cases r <;> cases s3 <;> cases cl <;> cases db <;> cases sr <;>
    simp [CallOutcome.succeeded]

/-- Claim C4: starting from the empty log, any sequence of `add_alert`
operations leaves at most 200 entries, and appending to a log holding
exactly 200 entries evicts exactly the oldest entry while preserving the
order of the rest. -/
theorem alert_log_bounded (ops : List (String × String)) (log : List (String × String))
    (t m : String) (h : log.length = alertCapacity) :
    (ops.foldl (fun l p => add_alert l p.1 p.2) []).length ≤ alertCapacity
    ∧ add_alert log t m = log.tail ++ [(t, m)] :=
  ⟨foldl_add_alert_length_le ops [] (by simp [alertCapacity]),
   add_alert_full log t m h⟩

def fullLog : List (String × String) := List.replicate 200 ("00:00:00", "old")

theorem alert_log_bounded_witness :
    fullLog.length = alertCapacity
    ∧ ((([("09:00:00", "a")] : List (String × String)).foldl
          (fun l p => add_alert l p.1 p.2) []).length ≤ alertCapacity
      ∧ add_alert fullLog "09:00:01" "new" = fullLog.tail ++ [("09:00:01", "new")]) :=
  ⟨by simp only [fullLog, alertCapacity, List.length_replicate],
   alert_log_bounded [("09:00:00", "a")] fullLog "09:00:01" "new"
     (by simp only [fullLog, alertCapacity, List.length_replicate])⟩

/-- Claim C5: when monitoring is not active, `start_monitoring` sets
`is_running` to true iff the remote start call reports success; on any
failing outcome `is_running` stays false, no polling task is spawned
(`taskLive` is unchanged), the outcome-specific cause is logged, and the
start button is re-enabled. -/
theorem start_monitoring_failure_safe (st : MonState) (o : StartOutcome) (m : String)
    (h : st.isRunning = false) :
    ((start_monitoring st o).isRunning = true ↔ o = StartOutcome.ok)
    ∧ (startFailureMsg o = some m →
        (start_monitoring st o).isRunning = false
        ∧ (start_monitoring st o).taskLive = st.taskLive
        ∧ (start_monitoring st o).startDisabled = false
        ∧ m ∈ (start_monitoring st o).alerts) := by
  cases o <;>
    refine ⟨by simp [start_monitoring, h], fun hm => ?_⟩ <;>
    simp only [startFailureMsg, Option.some.injEq, reduceCtorEq] at hm
  case appFail d => subst hm; simp [start_monitoring, h]
  case timeout => subst hm; simp [start_monitoring, h]
  case reqErr em => subst hm; simp [start_monitoring, h]
  case unexpected em => subst hm; simp [start_monitoring, h]

def readyState : MonState :=
  { isRunning := false, taskLive := false, startDisabled := false,
    stopDisabled := true, statusLabel := "System Ready", alerts := [] }

theorem start_monitoring_failure_safe_witness :
    ((start_monitoring readyState StartOutcome.timeout).isRunning = true
        ↔ StartOutcome.timeout = StartOutcome.ok)
    ∧ (startFailureMsg StartOutcome.timeout
          = some "Error starting monitoring: Request timed out." →
        (start_monitoring readyState StartOutcome.timeout).isRunning = false
        ∧ (start_monitoring readyState StartOutcome.timeout).taskLive = readyState.taskLive
        ∧ (start_monitoring readyState StartOutcome.timeout).startDisabled = false
        ∧ "Error starting monitoring: Request timed out."
            ∈ (start_monitoring readyState StartOutcome.timeout).alerts) :=
  start_monitoring_failure_safe readyState StartOutcome.timeout
    "Error starting monitoring: Request timed out." rfl

/-- Claim C6: stopping while monitoring is active sets `is_running` to false
before the remote stop command is issued; the polling task is cancelled and
awaited before the handle is cleared; the remote stop command appears only
as a detached task spawn (never as an awaited call of `stop_monitoring`
itself); and a failure of that background call produces only a diagnostic
print, never an alert-log entry. -/
theorem stop_active_sequencing (user : Bool) (m : String) :
    ((stop_monitoring_events true true user).indexOf (StopEv.setActive false)
        < (stop_monitoring_events true true user).indexOf StopEv.spawnStopRequest
      ∧ (stop_monitoring_events true true user).indexOf StopEv.cancelTask
        < (stop_monitoring_events true true user).indexOf StopEv.awaitTask
      ∧ (stop_monitoring_events true true user).indexOf StopEv.awaitTask
        < (stop_monitoring_events true true user).indexOf StopEv.clearHandle
      ∧ StopEv.setActive false ∈ stop_monitoring_events true true user
      ∧ StopEv.cancelTask ∈ stop_monitoring_events true true user
      ∧ StopEv.awaitTask ∈ stop_monitoring_events true true user
      ∧ StopEv.clearHandle ∈ stop_monitoring_events true true user
      ∧ StopEv.spawnStopRequest ∈ stop_monitoring_events true true user
      ∧ StopEv.remoteStopCall ∉ stop_monitoring_events true true user)
    ∧ ((send_stop_request_events (some m)).filter isAlertEv = []
      ∧ StopEv.diag ("Failed to send stop request to API: " ++ m)
          ∈ send_stop_request_events (some m)
      ∧ (send_stop_request_events none).filter isAlertEv = []) :=
  ⟨by cases user <;> decide,
   by simp [send_stop_request_events, isAlertEv, List.filter]⟩

/-- Claim C7 counterexample: an application-level failure (well-formed
response whose success flag is false) is a fetch failure, yet the iteration
performs no cooldown sleep — only the standard 0.1 s inter-iteration delay —
before the next fetch attempt, contradicting the claim that every failure
waits a cooldown interval. -/
theorem poll_noFrame_no_cooldown :
    isFetchFailure (FetchOutcome.noFrame "Frame not available") = true
    ∧ (pollIteration true (FetchOutcome.noFrame "Frame not available")).alerts ≠ []
    ∧ cooldownMs ∉ (pollIteration true (FetchOutcome.noFrame "Frame not available")).sleepsMs := by
  decide

/-- Claim C7 (amended): timeout and transport failures wait the 2 s cooldown
(then the standard 0.1 s delay) and append an alert only if monitoring is
still active; an application-level failure (success flag false) appends an
alert unconditionally but waits only the standard 0.1 s delay, with no
cooldown; and no failure terminates the loop — with the running flag true
throughout, the loop performs one fetch per planned iteration. -/
theorem poll_failure_handling (r : Bool) (m d : String) (os : List FetchOutcome) :
    (pollIteration r FetchOutcome.timeout).sleepsMs = [cooldownMs, refreshDelayMs]
    ∧ (pollIteration r (FetchOutcome.reqErr m)).sleepsMs = [cooldownMs, refreshDelayMs]
    ∧ (pollIteration r FetchOutcome.timeout).alerts
        = (if r then ["Video feed request timed out."] else [])
    ∧ (pollIteration r (FetchOutcome.reqErr m)).alerts
        = (if r then ["Error updating video feed: " ++ m] else [])
    ∧ (pollIteration r (FetchOutcome.noFrame d)).alerts = ["Frame retrieval failed: " ++ d]
    ∧ (pollIteration r (FetchOutcome.noFrame d)).sleepsMs = [refreshDelayMs]
    ∧ (update_video_feed_loop os).2 = os.length := by
  refine ⟨rfl, rfl, rfl, rfl, rfl, rfl, ?_⟩
  induction os with
  | nil => rfl
  | cons o rest ih => simp [update_video_feed_loop, ih]

/-- Claim C8: calling stop while monitoring is not active produces exactly
the no-op branch: a no-op notice is logged, `is_running` is never assigned,
and no task is cancelled, awaited, cleared, or spawned — for any value of
the task handle and whether or not the call is user-initiated. -/
theorem stop_inactive_noop (t user : Bool) :
    stop_monitoring_events false t user
      = [StopEv.setStartDisabled false, StopEv.setStopDisabled true,
         StopEv.setStatus "System Ready", StopEv.clearFrame,
         StopEv.alert "Camera monitoring not active. Cannot stop."]
        ++ (if user then [StopEv.pageUpdate] else [])
    ∧ StopEv.setActive false ∉ stop_monitoring_events false t user
    ∧ StopEv.setActive true ∉ stop_monitoring_events false t user
    ∧ StopEv.cancelTask ∉ stop_monitoring_events false t user
    ∧ StopEv.awaitTask ∉ stop_monitoring_events false t user
    ∧ StopEv.clearHandle ∉ stop_monitoring_events false t user
    ∧ StopEv.spawnStopRequest ∉ stop_monitoring_events false t user
    ∧ StopEv.alert "Camera monitoring not active. Cannot stop."
        ∈ stop_monitoring_events false t user := by
  cases t <;> cases user <;> decide

/-- Claim C9: in a polling iteration running after `is_running` has become
false, a timeout or transport error appends nothing to the alert log (both
handlers are guarded by `if is_running`), while an application-level failure
(success flag false in the payload) is still logged unconditionally. -/
theorem poll_alert_guard (m d : String) :
    (pollIteration false FetchOutcome.timeout).alerts = []
    ∧ (pollIteration false (FetchOutcome.reqErr m)).alerts = []
    ∧ (pollIteration false (FetchOutcome.noFrame d)).alerts
        = ["Frame retrieval failed: " ++ d] :=
  ⟨rfl, rfl, rfl⟩

/-- Claim C10: `get_base_url` strips surrounding whitespace, falls back to
the hardcoded default exactly when the stripped field is blank, otherwise
returns the stripped value with trailing slashes removed — independently of
whether the scheme check warned — and its result never ends in a '/'. -/
theorem get_base_url_spec (s : List Char) :
    get_base_url s
      = (if (pyStrip s).isEmpty
          then ({ url := DEFAULT_REST_API_URL, warned := false } : BaseUrl)
          else { url := pyRstripSlash (pyStrip s), warned := !hasHttpScheme (pyStrip s) })
    ∧ (get_base_url s).url.getLast? ≠ some '/' := by
  constructor
  · rfl
  · unfold get_base_url
    dsimp only
    split
    · decide
    · exact pyRstripSlash_getLast? _

end HomeSecurity
